import Mathlib

/-!
Verification of the OneRAG retrieval core and streaming delivery layer.

Each definition below is a shallow embedding of one function of the
repository (file and line references in the doc comments).  Machine floats
are modelled as real numbers (reranker scores, which pass through a real
sigmoid) or as rationals (RRF fusion arithmetic, which is exact).
Fallible constructors are modelled with `Except`; Python dictionaries with
association lists; the asynchronous generator feeding the WebSocket loop
with an explicit list of pipeline events followed by a terminator.
-/

namespace OneRAG

/-- `SearchResult` value type from
`app/modules/core/retrieval/interfaces.py` (re-declared identically in
`retrievers/mongodb_atlas_retriever.py` lines 55-61): `id`, `content`,
`score`, `metadata`.  The score type is a parameter so that the reranker
(real-valued sigmoid scores) and the RRF merger (exact rational
arithmetic) can share the shape. -/
structure SearchResult (S : Type) where
  id : String
  content : String
  score : S
  metadata : List (String × String)
deriving Repr, DecidableEq

/-- Descending-score ordering used by every `RankedList`: `a` may come
before `b` iff `b.score ≤ a.score`. -/
def scoreGE {S : Type} [LE S] (a b : SearchResult S) : Prop :=
  b.score ≤ a.score

instance {S : Type} [LinearOrder S] : IsTotal (SearchResult S) scoreGE :=
  ⟨fun a b => (le_total b.score a.score).imp (fun h => h) (fun h => h)⟩

instance {S : Type} [LinearOrder S] : IsTrans (SearchResult S) scoreGE :=
  ⟨fun _ _ _ hab hbc => le_trans hbc hab⟩

noncomputable instance {S : Type} [LinearOrder S] :
    DecidableRel (@scoreGE S _) :=
  fun a b => inferInstanceAs (Decidable (b.score ≤ a.score))

/-! ## LocalReranker (`app/modules/core/retrieval/rerankers/local_reranker.py`) -/

/-- The sigmoid normalisation of `local_reranker.py` line 152:
`scores = 1 / (1 + np.exp(-raw_scores))`, applied elementwise to the raw
cross-encoder logits. -/
noncomputable def sigmoid (x : ℝ) : ℝ :=
  1 / (1 + Real.exp (-x))

/-- The `self.stats` counter dictionary of `LocalReranker.__init__`
(lines 85-89). -/
structure RerankStats where
  total_requests : Nat
  successful_requests : Nat
  failed_requests : Nat
deriving Repr, DecidableEq

/-- Observable outcome of one `LocalReranker.rerank` call: the returned
list, the updated counters, whether the cross-encoder model ends up
loaded, and whether its `predict` was invoked during the call. -/
structure RerankOutcome where
  output : List (SearchResult ℝ)
  stats : RerankStats
  modelLoaded : Bool
  modelInvoked : Bool

/-- `LocalReranker.rerank` (`local_reranker.py` lines 109-183).

The cross-encoder call `self._model.predict(pairs, ...)` is the external
scoring backend; its behaviour is the `predictResult` parameter: `.ok raw`
is a list of raw logits (one per query-document pair), `.error` is any
exception raised by the call.  The transcription follows the source line
by line: empty input returns `[]` before touching the model or the
counters (lines 126-128); otherwise the model is loaded (lines 131-132),
`total_requests` is incremented (line 137), and inside the `try` block the
scores are squashed through the sigmoid, zipped onto the results with
`strict=True` (which raises — hence falls back — when the lengths differ),
sorted by descending score and truncated to `top_n` (lines 139-178); any
exception lands in the `except` branch which increments `failed_requests`
and returns the original list (lines 180-183), so the call never raises
past the reranker boundary. -/
noncomputable def localRerank (stats : RerankStats) (modelLoaded : Bool)
    (query : String) (results : List (SearchResult ℝ))
    (predictResult : Except String (List ℝ)) (top_n : Option Nat) :
    RerankOutcome :=
  if results.isEmpty then
    { output := [], stats := stats, modelLoaded := modelLoaded,
      modelInvoked := false }
  else
    let stats1 : RerankStats :=
      { stats with total_requests := stats.total_requests + 1 }
    match predictResult with
    | .error _ =>
        { output := results
          stats := { stats1 with
                       failed_requests := stats1.failed_requests + 1 }
          modelLoaded := true, modelInvoked := true }
    | .ok rawScores =>
        if rawScores.length = results.length then
          let reranked : List (SearchResult ℝ) :=
            (results.zip rawScores).map fun p =>
              { id := p.1.id, content := p.1.content,
                score := sigmoid p.2, metadata := p.1.metadata }
          let sorted := reranked.insertionSort scoreGE
          let final :=
            match top_n with
            | none => sorted
            | some n => sorted.take n
          { output := final
            stats := { stats1 with
                         successful_requests :=
                           stats1.successful_requests + 1 }
            modelLoaded := true, modelInvoked := true }
        else
          { output := results
            stats := { stats1 with
                         failed_requests := stats1.failed_requests + 1 }
            modelLoaded := true, modelInvoked := true }

theorem sigmoid_pos (x : ℝ) : 0 < sigmoid x := by
  have hexp : 0 < Real.exp (-x) := Real.exp_pos _
  have hden : 0 < 1 + Real.exp (-x) := by linarith
  exact div_pos one_pos hden

theorem sigmoid_lt_one (x : ℝ) : sigmoid x < 1 := by
  have hexp : 0 < Real.exp (-x) := Real.exp_pos _
  have hden : 0 < 1 + Real.exp (-x) := by linarith
  have h1 : (1 : ℝ) < 1 + Real.exp (-x) := by linarith
  calc sigmoid x = 1 / (1 + Real.exp (-x)) := rfl
    _ < 1 := (div_lt_one hden).mpr h1

/-- C1: for every query and every non-empty result list, if the scoring
backend (`self._model.predict`) raises any exception, `LocalReranker.rerank`
returns exactly the input list — same ids, same order, same scores — so it
never raises past the reranker boundary, never returns an empty list, and
ignores the requested `top_n` truncation on this fallback path (the
equation holds for every `top_n`, including `some 0`). -/
theorem rerank_backend_failure_returns_input (stats : RerankStats)
    (modelLoaded : Bool) (query : String) (results : List (SearchResult ℝ))
    (err : String) (top_n : Option Nat) (hne : results ≠ []) :
    (localRerank stats modelLoaded query results (.error err) top_n).output
        = results ∧
    (localRerank stats modelLoaded query results (.error err) top_n).output
        ≠ [] := by
  cases results with
  | nil => exact absurd rfl hne
  | cons r rs =>
      refine ⟨rfl, ?_⟩
      intro h
      exact List.cons_ne_nil r rs h

theorem rerank_backend_failure_returns_input_witness :
    (([⟨"d1", "doc one", (9 : ℝ)/10, [("k", "v")]⟩,
       ⟨"d2", "doc two", (1 : ℝ)/2, []⟩] : List (SearchResult ℝ)) ≠ []) ∧
    ((localRerank ⟨0, 0, 0⟩ false "q"
        [⟨"d1", "doc one", (9 : ℝ)/10, [("k", "v")]⟩,
         ⟨"d2", "doc two", (1 : ℝ)/2, []⟩] (.error "HTTP 500") (some 1)).output
      = [⟨"d1", "doc one", (9 : ℝ)/10, [("k", "v")]⟩,
         ⟨"d2", "doc two", (1 : ℝ)/2, []⟩] ∧
     (localRerank ⟨0, 0, 0⟩ false "q"
        [⟨"d1", "doc one", (9 : ℝ)/10, [("k", "v")]⟩,
         ⟨"d2", "doc two", (1 : ℝ)/2, []⟩] (.error "HTTP 500") (some 1)).output
      ≠ []) :=
  ⟨by simp,
   rerank_backend_failure_returns_input ⟨0, 0, 0⟩ false "q" _ "HTTP 500"
     (some 1) (by simp)⟩

/-- C10: `LocalReranker.rerank` on the empty result list returns `[]`
immediately (lines 126-128): the model is neither loaded nor invoked and
none of the `total_requests` / `successful_requests` / `failed_requests`
counters change — so the never-returns-empty guarantee only applies to
non-empty inputs. -/
theorem rerank_empty_input_short_circuits (stats : RerankStats)
    (modelLoaded : Bool) (query : String)
    (predictResult : Except String (List ℝ)) (top_n : Option Nat) :
    localRerank stats modelLoaded query [] predictResult top_n =
      { output := [], stats := stats, modelLoaded := modelLoaded,
        modelInvoked := false } :=
  rfl

/-- The success-path body of `LocalReranker.rerank` (lines 139-171):
pair each result with its raw logit, squash through the sigmoid, sort by
descending score, truncate to `top_n`. -/
noncomputable def rerankSuccessList (results : List (SearchResult ℝ))
    (rawScores : List ℝ) (top_n : Option Nat) : List (SearchResult ℝ) :=
  let reranked : List (SearchResult ℝ) :=
    (results.zip rawScores).map fun p =>
      { id := p.1.id, content := p.1.content,
        score := sigmoid p.2, metadata := p.1.metadata }
  let sorted := reranked.insertionSort scoreGE
  match top_n with
  | none => sorted
  | some n => sorted.take n

theorem localRerank_output_ok (stats : RerankStats) (modelLoaded : Bool)
    (query : String) (results : List (SearchResult ℝ)) (rawScores : List ℝ)
    (top_n : Option Nat) (hne : results ≠ [])
    (hlen : rawScores.length = results.length) :
    (localRerank stats modelLoaded query results (.ok rawScores) top_n).output
      = rerankSuccessList results rawScores top_n := by
  have hempty : results.isEmpty = false := by
    cases results with
    | nil => exact absurd rfl hne
    | cons a l => rfl
  cases top_n <;>
    simp [localRerank, rerankSuccessList, hempty, hlen]

theorem rerankSuccessList_mem_score (results : List (SearchResult ℝ))
    (rawScores : List ℝ) (top_n : Option Nat) (r : SearchResult ℝ)
    (hr : r ∈ rerankSuccessList results rawScores top_n) :
    ∃ x : ℝ, r.score = sigmoid x := by
  have hmem : r ∈ ((results.zip rawScores).map fun p =>
      ({ id := p.1.id, content := p.1.content, score := sigmoid p.2,
         metadata := p.1.metadata } : SearchResult ℝ)) := by
    cases top_n with
    | none =>
        exact (List.mem_insertionSort scoreGE).mp hr
    | some n =>
        exact (List.mem_insertionSort scoreGE).mp (List.mem_of_mem_take hr)
  rcases List.mem_map.mp hmem with ⟨p, _, hp⟩
  exact ⟨p.2, by rw [← hp]⟩

theorem rerankSuccessList_sorted (results : List (SearchResult ℝ))
    (rawScores : List ℝ) (top_n : Option Nat) :
    (rerankSuccessList results rawScores top_n).Sorted scoreGE := by
  cases top_n with
  | none => exact List.sorted_insertionSort scoreGE _
  | some n =>
      exact List.Pairwise.sublist (List.take_sublist n _)
        (List.sorted_insertionSort scoreGE _)

/-- C6: on the success path (non-empty input, scoring backend returns one
raw logit per result), every returned score lies in `[0, 1]` (it is a
sigmoid value), the returned list is sorted non-increasing by score
(`list[i+1].score ≤ list[i].score` for every adjacent pair), and the list
is truncated to `top_n` when `top_n` is given (length `min top_n
(results.length)`, full length otherwise). -/
theorem rerank_success_normalized_sorted_truncated (stats : RerankStats)
    (modelLoaded : Bool) (query : String) (results : List (SearchResult ℝ))
    (rawScores : List ℝ) (top_n : Option Nat) (hne : results ≠ [])
    (hlen : rawScores.length = results.length) :
    (∀ r ∈ (localRerank stats modelLoaded query results
              (.ok rawScores) top_n).output,
        0 ≤ r.score ∧ r.score ≤ 1) ∧
    (∀ i : Nat,
      ∀ hi : i + 1 < (localRerank stats modelLoaded query results
                        (.ok rawScores) top_n).output.length,
        ((localRerank stats modelLoaded query results
            (.ok rawScores) top_n).output.get ⟨i + 1, hi⟩).score ≤
        ((localRerank stats modelLoaded query results
            (.ok rawScores) top_n).output.get
              ⟨i, Nat.lt_of_succ_lt hi⟩).score) ∧
    ((localRerank stats modelLoaded query results
        (.ok rawScores) top_n).output.length =
      match top_n with
      | none => results.length
      | some n => min n results.length) := by
  rw [localRerank_output_ok stats modelLoaded query results rawScores top_n
        hne hlen]
  refine ⟨?_, ?_, ?_⟩
  · intro r hr
    rcases rerankSuccessList_mem_score results rawScores top_n r hr
      with ⟨x, hx⟩
    exact ⟨hx ▸ le_of_lt (sigmoid_pos x), hx ▸ le_of_lt (sigmoid_lt_one x)⟩
  · intro i hi
    exact (rerankSuccessList_sorted results rawScores top_n).rel_get_of_lt
      (by exact Nat.lt_succ_self i)
  · have hzip : (results.zip rawScores).length = results.length := by
      rw [List.length_zip, hlen, Nat.min_self]
    cases top_n with
    | none =>
        simp [rerankSuccessList, List.length_insertionSort, hzip]
    | some n =>
        simp [rerankSuccessList, List.length_take,
          List.length_insertionSort, hzip]

theorem rerank_success_normalized_sorted_truncated_witness :
    (([⟨"d1", "doc one", (0 : ℝ), []⟩,
       ⟨"d2", "doc two", (0 : ℝ), []⟩] : List (SearchResult ℝ)) ≠ []) ∧
    (([(0 : ℝ), (3 : ℝ)]).length =
      ([⟨"d1", "doc one", (0 : ℝ), []⟩,
        ⟨"d2", "doc two", (0 : ℝ), []⟩] : List (SearchResult ℝ)).length) ∧
    ((∀ r ∈ (localRerank ⟨0, 0, 0⟩ false "q"
              [⟨"d1", "doc one", (0 : ℝ), []⟩,
               ⟨"d2", "doc two", (0 : ℝ), []⟩]
              (.ok [(0 : ℝ), (3 : ℝ)]) (some 1)).output,
        0 ≤ r.score ∧ r.score ≤ 1) ∧
     (∀ i : Nat,
       ∀ hi : i + 1 < (localRerank ⟨0, 0, 0⟩ false "q"
              [⟨"d1", "doc one", (0 : ℝ), []⟩,
               ⟨"d2", "doc two", (0 : ℝ), []⟩]
              (.ok [(0 : ℝ), (3 : ℝ)]) (some 1)).output.length,
        ((localRerank ⟨0, 0, 0⟩ false "q"
              [⟨"d1", "doc one", (0 : ℝ), []⟩,
               ⟨"d2", "doc two", (0 : ℝ), []⟩]
              (.ok [(0 : ℝ), (3 : ℝ)]) (some 1)).output.get
                ⟨i + 1, hi⟩).score ≤
        ((localRerank ⟨0, 0, 0⟩ false "q"
              [⟨"d1", "doc one", (0 : ℝ), []⟩,
               ⟨"d2", "doc two", (0 : ℝ), []⟩]
              (.ok [(0 : ℝ), (3 : ℝ)]) (some 1)).output.get
                ⟨i, Nat.lt_of_succ_lt hi⟩).score) ∧
     ((localRerank ⟨0, 0, 0⟩ false "q"
          [⟨"d1", "doc one", (0 : ℝ), []⟩,
           ⟨"d2", "doc two", (0 : ℝ), []⟩]
          (.ok [(0 : ℝ), (3 : ℝ)]) (some 1)).output.length =
        match (some 1 : Option Nat) with
        | none => ([⟨"d1", "doc one", (0 : ℝ), []⟩,
                    ⟨"d2", "doc two", (0 : ℝ), []⟩] :
                     List (SearchResult ℝ)).length
        | some n => min n ([⟨"d1", "doc one", (0 : ℝ), []⟩,
                            ⟨"d2", "doc two", (0 : ℝ), []⟩] :
                             List (SearchResult ℝ)).length)) :=
  ⟨by simp, rfl,
   rerank_success_normalized_sorted_truncated ⟨0, 0, 0⟩ false "q" _ _
     (some 1) (by simp) rfl⟩

/-! ## WebSocket streaming (`app/api/routers/websocket_router.py`) -/

/-- One event yielded by `ChatService.stream_rag_pipeline` as consumed by
`_process_streaming` (lines 247-287): `metadata` (logged only), `chunk`
(a token of generated text), `done` (carries the `sources` list), `error`
(carries `error_code` and `message`), and `other` for any unrecognised
`event` tag (silently skipped by the dispatch). -/
inductive PipeEvent where
  | metadata (data : List (String × String))
  | chunk (data : String)
  | done (sources : List (List (String × String)))
  | error (errorCode message : String)
  | other
deriving Repr, DecidableEq

/-- How the pipeline generator finishes after the events it yielded:
normally exhausted (`completed`) or by raising an exception (`raised`,
the `except Exception` branch of lines 321-335). -/
inductive PipeTerm where
  | completed
  | raised
deriving Repr, DecidableEq

/-- One outbound WebSocket frame, mirroring the Pydantic event models of
`app/api/schemas/websocket.py`: `StreamStartEvent`, `StreamTokenEvent`,
`StreamSourcesEvent`, `StreamEndEvent`, `WSStreamErrorEvent`. -/
inductive WSEvent where
  | start (messageId sessionId timestamp : String)
  | token (messageId tok : String) (index : Nat)
  | sources (messageId : String) (sources : List (List (String × String)))
  | endEvent (messageId : String) (totalTokens processingTimeMs : Nat)
  | error (messageId errorCode message : String) (solutions : List String)
deriving Repr, DecidableEq

/-- The `type` discriminator string each event model serialises with. -/
def WSEvent.etype : WSEvent → String
  | .start .. => "stream_start"
  | .token .. => "stream_token"
  | .sources .. => "stream_sources"
  | .endEvent .. => "stream_end"
  | .error .. => "stream_error"

/-- `_send_error` helper (`websocket_router.py` lines 72-95): builds a
`stream_error` event, substituting the default solutions list when none
is supplied. -/
def sendError (messageId errorCode message : String)
    (solutions : Option (List String)) : WSEvent :=
  .error messageId errorCode message
    (solutions.getD ["잠시 후 다시 시도해주세요."])

/-- The pipeline events actually consumed by the `async for` loop: the
loop `return`s at the first `error` event (line 287), so the generator is
never driven past it. -/
def pipeConsumed : List PipeEvent → List PipeEvent
  | [] => []
  | .error _ _ :: _ => []
  | e :: rest => e :: pipeConsumed rest

def hasPipeError : List PipeEvent → Bool
  | [] => false
  | .error _ _ :: _ => true
  | _ :: rest => hasPipeError rest

/-- The chunk payloads of a pipeline event list, in order. -/
def chunkTexts : List PipeEvent → List String
  | [] => []
  | .chunk s :: rest => s :: chunkTexts rest
  | _ :: rest => chunkTexts rest

/-- The `error_code`/`message` pair of the first pipeline `error` event. -/
def firstPipeError : List PipeEvent → Option (String × String)
  | [] => none
  | .error c m :: _ => some (c, m)
  | _ :: rest => firstPipeError rest

/-- The value the local variable `sources` holds after the loop: the
payload of the last `done` event seen (line 277), else the accumulator. -/
def lastSources : List PipeEvent → List (List (String × String)) →
    List (List (String × String))
  | [], acc => acc
  | .done d :: rest, _ => lastSources rest d
  | _ :: rest, acc => lastSources rest acc

/-- The run of `stream_token` events for the chunk payloads `chunks`,
with indices counting up from `i`. -/
def tokenStream (messageId : String) (chunks : List String) (i : Nat) :
    List WSEvent :=
  match chunks with
  | [] => []
  | c :: cs => .token messageId c i :: tokenStream messageId cs (i + 1)

/-- The `async for` consumption loop of `_process_streaming`
(`websocket_router.py` lines 247-303) together with its `except` handler
(lines 321-335): dispatch each pipeline event (`metadata` logged only,
`chunk` forwarded as a `stream_token` with the running `token_index`,
`done` stashing its `sources`, `error` forwarded via `_send_error` and
ending the turn); when the generator is exhausted normally, send
`stream_sources` then `stream_end` with `total_tokens = token_index`;
when it raises, send the `WS-999-INTERNAL_ERROR` event instead. -/
def streamLoop (messageId : String) (processingTimeMs : Nat) :
    List PipeEvent → PipeTerm → Nat → List (List (String × String)) →
    List WSEvent
  | [], .completed, tokenIndex, srcs =>
      [.sources messageId srcs,
       .endEvent messageId tokenIndex processingTimeMs]
  | [], .raised, _, _ =>
      [sendError messageId "WS-999-INTERNAL_ERROR"
        "스트리밍 처리 중 오류가 발생했습니다."
        (some ["잠시 후 다시 시도해주세요.",
               "문제가 지속되면 관리자에게 문의해주세요."])]
  | e :: rest, term, tokenIndex, srcs =>
      match e with
      | .metadata _ =>
          streamLoop messageId processingTimeMs rest term tokenIndex srcs
      | .chunk data =>
          .token messageId data tokenIndex ::
            streamLoop messageId processingTimeMs rest term
              (tokenIndex + 1) srcs
      | .done d =>
          streamLoop messageId processingTimeMs rest term tokenIndex d
      | .error code msg =>
          [sendError messageId code msg none]
      | .other =>
          streamLoop messageId processingTimeMs rest term tokenIndex srcs

/-- `_process_streaming` (`websocket_router.py` lines 211-336), as the
sequence of WebSocket frames sent in one turn: the `stream_start` event
(line 238) followed by the consumption loop with `token_index = 0` and
`sources = []` (lines 228-229).  The wall-clock `processing_time_ms` and
the start `timestamp` are parameters; the transport is assumed healthy
(a disconnect aborts emission and is out of this model's scope). -/
def processStreaming (messageId sessionId timestamp : String)
    (processingTimeMs : Nat) (events : List PipeEvent) (term : PipeTerm) :
    List WSEvent :=
  .start messageId sessionId timestamp ::
    streamLoop messageId processingTimeMs events term 0 []

/-- The `(token, index)` payloads of the token events of a frame list. -/
def tokenEvents (frames : List WSEvent) : List (String × Nat) :=
  frames.filterMap fun e =>
    match e with
    | .token _ t i => some (t, i)
    | _ => none

theorem streamLoop_success_eq (messageId : String) (processingTimeMs : Nat)
    (events : List PipeEvent) (tokenIndex : Nat)
    (srcs : List (List (String × String)))
    (hne : hasPipeError events = false) :
    streamLoop messageId processingTimeMs events .completed tokenIndex srcs
      = tokenStream messageId (chunkTexts events) tokenIndex ++
        [.sources messageId (lastSources events srcs),
         .endEvent messageId (tokenIndex + (chunkTexts events).length)
           processingTimeMs] := by
  induction events generalizing tokenIndex srcs with
  | nil => simp [streamLoop, tokenStream, chunkTexts, lastSources]
  | cons e rest ih =>
      cases e with
      | metadata d =>
          have h : hasPipeError rest = false := by
            simpa [hasPipeError] using hne
          simp [streamLoop, chunkTexts, lastSources, ih _ _ h]
      | chunk s =>
          have h : hasPipeError rest = false := by
            simpa [hasPipeError] using hne
          have harith : tokenIndex + 1 + (chunkTexts rest).length
              = tokenIndex + ((chunkTexts rest).length + 1) := by omega
          simp only [streamLoop, chunkTexts, lastSources, ih _ _ h,
            tokenStream, List.cons_append, List.length_cons, harith]
      | done d =>
          have h : hasPipeError rest = false := by
            simpa [hasPipeError] using hne
          simp [streamLoop, chunkTexts, lastSources, ih _ _ h]
      | error c m =>
          exact absurd hne (by simp [hasPipeError])
      | other =>
          have h : hasPipeError rest = false := by
            simpa [hasPipeError] using hne
          simp [streamLoop, chunkTexts, lastSources, ih _ _ h]

theorem streamLoop_failure_eq (messageId : String) (processingTimeMs : Nat)
    (events : List PipeEvent) (term : PipeTerm) (tokenIndex : Nat)
    (srcs : List (List (String × String)))
    (hfail : hasPipeError events = true ∨ term = .raised) :
    streamLoop messageId processingTimeMs events term tokenIndex srcs
      = tokenStream messageId (chunkTexts (pipeConsumed events))
          tokenIndex ++
        [match firstPipeError events with
         | some (c, m) => sendError messageId c m none
         | none =>
             sendError messageId "WS-999-INTERNAL_ERROR"
               "스트리밍 처리 중 오류가 발생했습니다."
               (some ["잠시 후 다시 시도해주세요.",
                      "문제가 지속되면 관리자에게 문의해주세요."])] := by
  induction events generalizing tokenIndex srcs with
  | nil =>
      rcases hfail with h | h
      · exact absurd h (by simp [hasPipeError])
      · subst h
        simp [streamLoop, pipeConsumed, chunkTexts, firstPipeError,
          tokenStream, sendError]
  | cons e rest ih =>
      cases e with
      | metadata d =>
          have h : hasPipeError rest = true ∨ term = .raised := by
            rcases hfail with h | h
            · exact Or.inl (by simpa [hasPipeError] using h)
            · exact Or.inr h
          simp [streamLoop, pipeConsumed, chunkTexts, firstPipeError,
            ih _ _ h]
      | chunk s =>
          have h : hasPipeError rest = true ∨ term = .raised := by
            rcases hfail with h | h
            · exact Or.inl (by simpa [hasPipeError] using h)
            · exact Or.inr h
          simp [streamLoop, pipeConsumed, chunkTexts, firstPipeError,
            ih _ _ h, tokenStream]
      | done d =>
          have h : hasPipeError rest = true ∨ term = .raised := by
            rcases hfail with h | h
            · exact Or.inl (by simpa [hasPipeError] using h)
            · exact Or.inr h
          simp [streamLoop, pipeConsumed, chunkTexts, firstPipeError,
            ih _ _ h]
      | error c m =>
          simp [streamLoop, pipeConsumed, chunkTexts, firstPipeError,
            tokenStream]
      | other =>
          have h : hasPipeError rest = true ∨ term = .raised := by
            rcases hfail with h | h
            · exact Or.inl (by simpa [hasPipeError] using h)
            · exact Or.inr h
          simp [streamLoop, pipeConsumed, chunkTexts, firstPipeError,
            ih _ _ h]

theorem tokenStream_map_etype (messageId : String) (chunks : List String)
    (i : Nat) :
    (tokenStream messageId chunks i).map WSEvent.etype
      = List.replicate chunks.length "stream_token" := by
  induction chunks generalizing i with
  | nil => rfl
  | cons c cs ih =>
      simp [tokenStream, WSEvent.etype, List.replicate_succ, ih]

theorem tokenEvents_tokenStream (messageId : String) (chunks : List String)
    (i : Nat) :
    tokenEvents (tokenStream messageId chunks i)
      = chunks.zip ((List.range chunks.length).map (· + i)) := by
  induction chunks generalizing i with
  | nil => rfl
  | cons c cs ih =>
      simp only [tokenStream, tokenEvents, List.filterMap_cons,
        List.length_cons]
      rw [List.range_succ_eq_map]
      simp only [List.map_cons, List.map_map, List.zip_cons_cons,
        Nat.zero_add]
      have : ((· + i) ∘ Nat.succ) = (· + (i + 1)) := by
        funext m
        simp [Function.comp]
        omega
      rw [this]
      have ihspec := ih (i + 1)
      simp only [tokenEvents] at ihspec
      rw [ihspec]

theorem tokenEvents_append (a b : List WSEvent) :
    tokenEvents (a ++ b) = tokenEvents a ++ tokenEvents b := by
  simp [tokenEvents, List.filterMap_append]

theorem pipeConsumed_of_no_error (events : List PipeEvent)
    (hne : hasPipeError events = false) : pipeConsumed events = events := by
  induction events with
  | nil => rfl
  | cons e rest ih =>
      cases e with
      | metadata d => simp [pipeConsumed, ih (by simpa [hasPipeError] using hne)]
      | chunk s => simp [pipeConsumed, ih (by simpa [hasPipeError] using hne)]
      | done d => simp [pipeConsumed, ih (by simpa [hasPipeError] using hne)]
      | error c m => exact absurd hne (by simp [hasPipeError])
      | other => simp [pipeConsumed, ih (by simpa [hasPipeError] using hne)]

theorem tokenEvents_processStreaming (messageId sessionId timestamp : String)
    (processingTimeMs : Nat) (events : List PipeEvent) (term : PipeTerm) :
    tokenEvents (processStreaming messageId sessionId timestamp
        processingTimeMs events term)
      = (chunkTexts (pipeConsumed events)).zip
          (List.range (chunkTexts (pipeConsumed events)).length) := by
  by_cases hfail : hasPipeError events = true ∨ term = .raised
  · rw [processStreaming]
    rw [streamLoop_failure_eq messageId processingTimeMs events term 0 []
      hfail]
    have hz := tokenEvents_tokenStream messageId
      (chunkTexts (pipeConsumed events)) 0
    simp only [add_zero] at hz
    cases hFE : firstPipeError events with
    | none =>
        simp [tokenEvents, List.filterMap_cons, List.filterMap_append,
          sendError] at hz ⊢
        simpa using hz
    | some cm =>
        cases cm with
        | mk c m =>
            simp [tokenEvents, List.filterMap_cons, List.filterMap_append,
              sendError] at hz ⊢
            simpa using hz
  · push_neg at hfail
    obtain ⟨herr, hterm⟩ := hfail
    have herr2 : hasPipeError events = false := by
      cases h : hasPipeError events with
      | false => rfl
      | true => exact absurd h herr
    have hterm2 : term = .completed := by
      cases term with
      | completed => rfl
      | raised => exact absurd rfl hterm
    subst hterm2
    rw [processStreaming,
      streamLoop_success_eq messageId processingTimeMs events 0 [] herr2,
      pipeConsumed_of_no_error events herr2]
    have hz := tokenEvents_tokenStream messageId (chunkTexts events) 0
    simp only [add_zero] at hz
    simp [tokenEvents, List.filterMap_cons, List.filterMap_append] at hz ⊢
    simpa using hz

/-- C2: per streaming turn, the event-type sequence over the WebSocket is
exactly `stream_start, stream_token*, stream_sources, stream_end` when the
pipeline completes without an error event and without raising, and exactly
`stream_start, stream_token*, stream_error` (no `stream_end`) when the
pipeline yields an `error` event or raises; no turn ever contains both a
`stream_end` and a `stream_error`. -/
theorem stream_event_type_sequence (messageId sessionId timestamp : String)
    (processingTimeMs : Nat) (events : List PipeEvent) (term : PipeTerm) :
    (hasPipeError events = false → term = .completed →
      (processStreaming messageId sessionId timestamp processingTimeMs
          events term).map WSEvent.etype
        = "stream_start" ::
            (List.replicate (chunkTexts events).length "stream_token" ++
              ["stream_sources", "stream_end"])) ∧
    (hasPipeError events = true ∨ term = .raised →
      (processStreaming messageId sessionId timestamp processingTimeMs
          events term).map WSEvent.etype
        = "stream_start" ::
            (List.replicate (chunkTexts (pipeConsumed events)).length
                "stream_token" ++
              ["stream_error"])) ∧
    ¬("stream_end" ∈ (processStreaming messageId sessionId timestamp
          processingTimeMs events term).map WSEvent.etype ∧
      "stream_error" ∈ (processStreaming messageId sessionId timestamp
          processingTimeMs events term).map WSEvent.etype) := by
  have hsucc : hasPipeError events = false → term = .completed →
      (processStreaming messageId sessionId timestamp processingTimeMs
          events term).map WSEvent.etype
        = "stream_start" ::
            (List.replicate (chunkTexts events).length "stream_token" ++
              ["stream_sources", "stream_end"]) := by
    intro herr hterm
    subst hterm
    rw [processStreaming,
      streamLoop_success_eq messageId processingTimeMs events 0 [] herr]
    simp [WSEvent.etype, tokenStream_map_etype]
  have hfailc : hasPipeError events = true ∨ term = .raised →
      (processStreaming messageId sessionId timestamp processingTimeMs
          events term).map WSEvent.etype
        = "stream_start" ::
            (List.replicate (chunkTexts (pipeConsumed events)).length
                "stream_token" ++
              ["stream_error"]) := by
    intro hfail
    rw [processStreaming,
      streamLoop_failure_eq messageId processingTimeMs events term 0 []
        hfail]
    cases hFE : firstPipeError events with
    | none => simp [WSEvent.etype, tokenStream_map_etype, sendError]
    | some cm =>
        cases cm with
        | mk c m => simp [WSEvent.etype, tokenStream_map_etype, sendError]
  refine ⟨hsucc, hfailc, ?_⟩
  rintro ⟨hend, herr⟩
  by_cases hfail : hasPipeError events = true ∨ term = .raised
  · rw [hfailc hfail] at hend
    simp [List.mem_replicate] at hend
  · push_neg at hfail
    obtain ⟨h1, h2⟩ := hfail
    have herr2 : hasPipeError events = false := by
      cases h : hasPipeError events with
      | false => rfl
      | true => exact absurd h h1
    have hterm2 : term = .completed := by
      cases term with
      | completed => rfl
      | raised => exact absurd rfl h2
    rw [hsucc herr2 hterm2] at herr
    simp [List.mem_replicate] at herr

theorem stream_event_type_sequence_witness :
    (hasPipeError [PipeEvent.chunk "안녕", PipeEvent.chunk "하세요",
        PipeEvent.done [[("id", "d1")]]] = false) ∧
    ((processStreaming "m1" "s1" "t0" 7
        [PipeEvent.chunk "안녕", PipeEvent.chunk "하세요",
         PipeEvent.done [[("id", "d1")]]] .completed).map WSEvent.etype
      = "stream_start" ::
          (List.replicate (chunkTexts [PipeEvent.chunk "안녕",
              PipeEvent.chunk "하세요",
              PipeEvent.done [[("id", "d1")]]]).length "stream_token" ++
            ["stream_sources", "stream_end"])) ∧
    (hasPipeError [PipeEvent.chunk "안녕",
        PipeEvent.error "GEN-001" "boom"] = true) ∧
    ((processStreaming "m2" "s1" "t0" 7
        [PipeEvent.chunk "안녕", PipeEvent.error "GEN-001" "boom"]
        .completed).map WSEvent.etype
      = "stream_start" ::
          (List.replicate (chunkTexts (pipeConsumed
              [PipeEvent.chunk "안녕",
               PipeEvent.error "GEN-001" "boom"])).length "stream_token" ++
            ["stream_error"])) :=
  ⟨rfl,
   (stream_event_type_sequence "m1" "s1" "t0" 7 _ .completed).1 rfl rfl,
   rfl,
   (stream_event_type_sequence "m2" "s1" "t0" 7 _ .completed).2.1
     (Or.inl rfl)⟩

/-- C3: in every turn the `stream_token` events carry indices
`0, 1, 2, …` with no gaps (their index list is `List.range` of the token
count), the concatenation of their `token` fields equals the
concatenation of the chunk payloads the pipeline actually yielded (the
events before the first `error` event — the loop stops driving the
generator there), and on the success path the final frame is the
`stream_end` event whose `total_tokens` equals the number of
`stream_token` events sent in the turn. -/
theorem stream_token_indices_concat_total (messageId sessionId
    timestamp : String) (processingTimeMs : Nat)
    (events : List PipeEvent) (term : PipeTerm) :
    ((tokenEvents (processStreaming messageId sessionId timestamp
          processingTimeMs events term)).map Prod.snd
        = List.range (chunkTexts (pipeConsumed events)).length) ∧
    (String.join ((tokenEvents (processStreaming messageId sessionId
          timestamp processingTimeMs events term)).map Prod.fst)
        = String.join (chunkTexts (pipeConsumed events))) ∧
    (hasPipeError events = false → term = .completed →
      (processStreaming messageId sessionId timestamp processingTimeMs
          events term).getLast?
        = some (.endEvent messageId
            (tokenEvents (processStreaming messageId sessionId timestamp
              processingTimeMs events term)).length processingTimeMs)) := by
  have hTE := tokenEvents_processStreaming messageId sessionId timestamp
    processingTimeMs events term
  have hlenr : (List.range
      (chunkTexts (pipeConsumed events)).length).length
      = (chunkTexts (pipeConsumed events)).length := List.length_range _
  refine ⟨?_, ?_, ?_⟩
  · rw [hTE]
    exact List.map_snd_zip _ _ (le_of_eq hlenr)
  · rw [hTE, List.map_fst_zip _ _ (le_of_eq hlenr.symm)]
  · intro herr hterm
    subst hterm
    have hlen : (tokenEvents (processStreaming messageId sessionId
        timestamp processingTimeMs events .completed)).length
        = (chunkTexts events).length := by
      rw [hTE, pipeConsumed_of_no_error events herr]
      simp [List.length_zip]
    rw [hlen, processStreaming,
      streamLoop_success_eq messageId processingTimeMs events 0 [] herr]
    have hsplit : (WSEvent.start messageId sessionId timestamp ::
        (tokenStream messageId (chunkTexts events) 0 ++
          [WSEvent.sources messageId (lastSources events []),
           WSEvent.endEvent messageId (0 + (chunkTexts events).length)
             processingTimeMs]))
        = (WSEvent.start messageId sessionId timestamp ::
            (tokenStream messageId (chunkTexts events) 0 ++
              [WSEvent.sources messageId (lastSources events [])])) ++
          [WSEvent.endEvent messageId (0 + (chunkTexts events).length)
             processingTimeMs] := by
      simp
    rw [hsplit, List.getLast?_concat]
    simp

theorem stream_token_indices_concat_total_witness :
    ((tokenEvents (processStreaming "m1" "s1" "t0" 7
          [PipeEvent.chunk "안녕", PipeEvent.chunk "하세요",
           PipeEvent.chunk "!"] .completed)).map Prod.snd
        = List.range (chunkTexts (pipeConsumed
            [PipeEvent.chunk "안녕", PipeEvent.chunk "하세요",
             PipeEvent.chunk "!"])).length) ∧
    (String.join ((tokenEvents (processStreaming "m1" "s1" "t0" 7
          [PipeEvent.chunk "안녕", PipeEvent.chunk "하세요",
           PipeEvent.chunk "!"] .completed)).map Prod.fst)
        = String.join (chunkTexts (pipeConsumed
            [PipeEvent.chunk "안녕", PipeEvent.chunk "하세요",
             PipeEvent.chunk "!"]))) ∧
    (hasPipeError [PipeEvent.chunk "안녕", PipeEvent.chunk "하세요",
        PipeEvent.chunk "!"] = false) ∧
    ((processStreaming "m1" "s1" "t0" 7
        [PipeEvent.chunk "안녕", PipeEvent.chunk "하세요",
         PipeEvent.chunk "!"] .completed).getLast?
      = some (.endEvent "m1"
          (tokenEvents (processStreaming "m1" "s1" "t0" 7
            [PipeEvent.chunk "안녕", PipeEvent.chunk "하세요",
             PipeEvent.chunk "!"] .completed)).length 7)) :=
  ⟨(stream_token_indices_concat_total "m1" "s1" "t0" 7 _ .completed).1,
   (stream_token_indices_concat_total "m1" "s1" "t0" 7 _ .completed).2.1,
   rfl,
   (stream_token_indices_concat_total "m1" "s1" "t0" 7 _ .completed).2.2
     rfl rfl⟩

/-! ## Inbound message validation (`websocket_chat`, lines 126-196, and
`ClientMessage` of `app/api/schemas/websocket.py` lines 25-56) -/

/-- A JSON value occupying one of the recognised message fields: a
string, or any non-string JSON value (number, boolean, null, array,
object) — Pydantic v2 rejects every non-string value for these `str`
fields (it does not coerce, e.g., int to str). -/
inductive JVal where
  | str (s : String)
  | other
deriving Repr, DecidableEq

/-- A parsed inbound JSON object, restricted to its four recognised
keys.  Each field is `none` when the key is absent. -/
structure RawMessage where
  type : Option JVal
  message_id : Option JVal
  content : Option JVal
  session_id : Option JVal
deriving Repr, DecidableEq

/-- Validated `ClientMessage` (`websocket.py` lines 25-56). -/
structure ClientMessage where
  message_id : String
  content : String
  session_id : String
deriving Repr, DecidableEq

/-- The `type: Literal["message"] = "message"` field rule: absent is
fine (the default applies); a present value must be the string
`"message"`. -/
def typeFieldOk : Option JVal → Bool
  | none => true
  | some (.str t) => t == "message"
  | some .other => false

/-- `ClientMessage.model_validate` over a parsed JSON object: `type`
defaults to `"message"` and must equal it, `message_id` and `session_id`
are required strings, `content` is a required string of 1 to 10000
characters; any absent required field or non-string value fails. -/
def validateClientMessage (d : RawMessage) : Option ClientMessage :=
  match d.message_id, d.content, d.session_id with
  | some (.str mid), some (.str c), some (.str sid) =>
      if typeFieldOk d.type ∧ 1 ≤ c.length ∧ c.length ≤ 10000 then
        some { message_id := mid, content := c, session_id := sid }
      else
        none
  | _, _, _ => none

/-- Result of a successful `json.loads` on an inbound text frame: an
object, or a non-object JSON value (number, string, array, …) — the
latter has no `.get` method, so line 139 raises `AttributeError`. -/
inductive ParsedJson where
  | nonObject
  | obj (d : RawMessage)

/-- One inbound WebSocket text frame: either `json.loads` failed
(`invalidJson`) or produced the value `p`. -/
inductive Inbound where
  | invalidJson
  | parsed (p : ParsedJson)

/-- Result of handling one inbound frame: the frames sent back and
whether the connection loop keeps awaiting the next message. -/
structure TurnResult where
  sent : List WSEvent
  connectionOpen : Bool
deriving Repr, DecidableEq

/-- One iteration of the `while True` receive loop of `websocket_chat`
(`websocket_router.py` lines 127-196): malformed JSON sends a
`WS-001-INVALID_JSON` error and `continue`s.  A payload that parses to a
non-object makes `data.get("message_id", "unknown")` (line 139) raise
`AttributeError`, which the inner `except json.JSONDecodeError` does not
catch; it reaches the outer `except Exception` (line 198) and the
`finally` disconnects — nothing is sent and the connection closes.  A
parse that fails `ClientMessage` validation sends a
`WS-002-VALIDATION_ERROR` error with `message_id` taken from the raw
payload (defaulting to "unknown") and `continue`s — unless that raw
`message_id` is a non-string value, in which case constructing
`WSStreamErrorEvent(message_id=…)` inside `_send_error` raises a Pydantic
`ValidationError` (v2 does not coerce non-strings to `str`), which again
reaches the outer handler and closes the connection with no frame sent.
A missing `ChatService` sends `WS-003-SERVICE_NOT_INITIALIZED` and
`continue`s; otherwise the turn is streamed via `_process_streaming`. -/
def handleInbound (serviceInitialized : Bool) (sessionId : String)
    (inbound : Inbound) (timestamp : String) (processingTimeMs : Nat)
    (events : List PipeEvent) (term : PipeTerm) : TurnResult :=
  match inbound with
  | .invalidJson =>
      { sent := [sendError "unknown" "WS-001-INVALID_JSON"
          "잘못된 JSON 형식입니다."
          (some ["올바른 JSON 형식으로 메시지를 전송해주세요."])]
        connectionOpen := true }
  | .parsed .nonObject =>
      { sent := [], connectionOpen := false }
  | .parsed (.obj d) =>
      match validateClientMessage d with
      | none =>
          match d.message_id.getD (.str "unknown") with
          | .str mid =>
              { sent := [sendError mid "WS-002-VALIDATION_ERROR"
                  "메시지 형식이 올바르지 않습니다."
                  (some ["type, message_id, content, session_id 필드를 확인해주세요.",
                         "content는 1자 이상 10000자 이하여야 합니다."])]
                connectionOpen := true }
          | .other =>
              { sent := [], connectionOpen := false }
      | some cm =>
          if serviceInitialized then
            { sent := processStreaming cm.message_id sessionId timestamp
                processingTimeMs events term
              connectionOpen := true }
          else
            { sent := [sendError cm.message_id
                "WS-003-SERVICE_NOT_INITIALIZED"
                "채팅 서비스가 초기화되지 않았습니다."
                (some ["서버 관리자에게 문의해주세요."])]
              connectionOpen := true }

/-- C9 (counterexample): the inbound message
`{"message_id": 5, "content": "", "session_id": "s1"}` parses and fails
`ClientMessage` schema validation (non-string `message_id`, empty
`content`), yet the server sends no `stream_error` frame at all — the
`WSStreamErrorEvent` construction inside `_send_error` raises on the
non-string `message_id` — and the connection closes instead of staying
open; likewise a top-level non-object payload such as `5` parses, sends
nothing and closes the connection. -/
theorem validation_failure_nonstring_id_counterexample :
    (validateClientMessage
        ⟨none, some .other, some (.str ""), some (.str "s1")⟩ = none) ∧
    ((handleInbound true "s1"
        (.parsed (.obj ⟨none, some .other, some (.str ""),
          some (.str "s1")⟩)) "t0" 7 [] .completed).sent = []) ∧
    ((handleInbound true "s1"
        (.parsed (.obj ⟨none, some .other, some (.str ""),
          some (.str "s1")⟩)) "t0" 7 [] .completed).connectionOpen
      = false) ∧
    ((handleInbound true "s1" (.parsed .nonObject) "t0" 7 []
        .completed).sent = []) ∧
    ((handleInbound true "s1" (.parsed .nonObject) "t0" 7 []
        .completed).connectionOpen = false) :=
  ⟨rfl, rfl, rfl, rfl, rfl⟩

/-- C9 (amended): for every inbound message whose JSON parses to an
object and fails `ClientMessage` schema validation, and whose raw
`message_id` value is a string (or absent, defaulting to "unknown"), the
server sends exactly one frame — a `stream_error` with code
`WS-002-VALIDATION_ERROR` — before any `stream_start`, and the connection
stays open awaiting the next message.  When instead the payload is not a
JSON object, or its raw `message_id` is a non-string value, the turn
handler itself raises: no frame is sent and the connection closes. -/
theorem validation_failure_string_id_single_error_event
    (serviceInitialized : Bool) (sessionId : String) (d : RawMessage)
    (timestamp : String) (processingTimeMs : Nat) (events : List PipeEvent)
    (term : PipeTerm) (mid : String)
    (hmid : d.message_id.getD (.str "unknown") = .str mid)
    (hv : validateClientMessage d = none) :
    ((handleInbound serviceInitialized sessionId (.parsed (.obj d))
        timestamp processingTimeMs events term).sent
      = [WSEvent.error mid "WS-002-VALIDATION_ERROR"
          "메시지 형식이 올바르지 않습니다."
          ["type, message_id, content, session_id 필드를 확인해주세요.",
           "content는 1자 이상 10000자 이하여야 합니다."]]) ∧
    (((handleInbound serviceInitialized sessionId (.parsed (.obj d))
        timestamp processingTimeMs events term).sent.map WSEvent.etype)
      = ["stream_error"]) ∧
    ((handleInbound serviceInitialized sessionId (.parsed (.obj d))
        timestamp processingTimeMs events term).connectionOpen = true) ∧
    ((handleInbound serviceInitialized sessionId (.parsed .nonObject)
        timestamp processingTimeMs events term).sent = []) ∧
    ((handleInbound serviceInitialized sessionId (.parsed .nonObject)
        timestamp processingTimeMs events term).connectionOpen = false) ∧
    (∀ d2 : RawMessage, validateClientMessage d2 = none →
      d2.message_id.getD (.str "unknown") = .other →
      (handleInbound serviceInitialized sessionId (.parsed (.obj d2))
          timestamp processingTimeMs events term).sent = [] ∧
      (handleInbound serviceInitialized sessionId (.parsed (.obj d2))
          timestamp processingTimeMs events term).connectionOpen
        = false) := by
  refine ⟨?_, ?_, ?_, rfl, rfl, ?_⟩
  · simp [handleInbound, hv, hmid, sendError]
  · simp [handleInbound, hv, hmid, sendError, WSEvent.etype]
  · simp [handleInbound, hv, hmid, sendError]
  · intro d2 hv2 hmid2
    constructor
    · simp [handleInbound, hv2, hmid2]
    · simp [handleInbound, hv2, hmid2]

theorem validation_failure_string_id_single_error_event_witness :
    ((⟨some (.str "message"), some (.str "m1"), some (.str ""),
        some (.str "s1")⟩ : RawMessage).message_id.getD (.str "unknown")
      = .str "m1") ∧
    (validateClientMessage
        ⟨some (.str "message"), some (.str "m1"), some (.str ""),
          some (.str "s1")⟩ = none) ∧
    (((handleInbound true "s1"
        (.parsed (.obj ⟨some (.str "message"), some (.str "m1"),
          some (.str ""), some (.str "s1")⟩)) "t0" 7 [] .completed).sent
      = [WSEvent.error "m1" "WS-002-VALIDATION_ERROR"
          "메시지 형식이 올바르지 않습니다."
          ["type, message_id, content, session_id 필드를 확인해주세요.",
           "content는 1자 이상 10000자 이하여야 합니다."]]) ∧
     (((handleInbound true "s1"
        (.parsed (.obj ⟨some (.str "message"), some (.str "m1"),
          some (.str ""), some (.str "s1")⟩)) "t0" 7 []
          .completed).sent.map WSEvent.etype)
      = ["stream_error"]) ∧
     ((handleInbound true "s1"
        (.parsed (.obj ⟨some (.str "message"), some (.str "m1"),
          some (.str ""), some (.str "s1")⟩)) "t0" 7 []
          .completed).connectionOpen = true) ∧
     ((handleInbound true "s1" (.parsed .nonObject) "t0" 7 []
          .completed).sent = []) ∧
     ((handleInbound true "s1" (.parsed .nonObject) "t0" 7 []
          .completed).connectionOpen = false) ∧
     (∀ d2 : RawMessage, validateClientMessage d2 = none →
       d2.message_id.getD (.str "unknown") = .other →
       (handleInbound true "s1" (.parsed (.obj d2)) "t0" 7 []
           .completed).sent = [] ∧
       (handleInbound true "s1" (.parsed (.obj d2)) "t0" 7 []
           .completed).connectionOpen = false)) :=
  ⟨rfl, rfl,
   validation_failure_string_id_single_error_event true "s1"
     ⟨some (.str "message"), some (.str "m1"), some (.str ""),
       some (.str "s1")⟩ "t0" 7 [] .completed "m1" rfl rfl⟩

/-! ## Vector stores (`app/infrastructure/storage/vector/`) -/

/-- One input document on the write path: `{id?, embedding, content?,
metadata?}`.  A missing `embedding` key is `doc.get("embedding", [])`,
i.e. the empty list, so `embedding = []` covers both the missing and the
empty embedding. -/
structure InputDoc where
  id : Option String
  embedding : List ℚ
  content : String
  metadata : List (String × String)
deriving Repr, DecidableEq

/-- A stored row: content, embedding and metadata keyed by document id. -/
structure StoredDoc where
  content : String
  embedding : List ℚ
  metadata : List (String × String)
deriving Repr, DecidableEq

/-- A backend table/collection: rows keyed by id. -/
abbrev Store := List (String × StoredDoc)

/-- `INSERT … ON CONFLICT (id) DO UPDATE` (pgvector, lines 229-239) and
`update_one({_id}, {$set}, upsert=True)` (MongoDB Atlas, lines 217-221):
replace the row when the id exists, append it otherwise. -/
def upsertDoc (store : Store) (docId : String) (doc : StoredDoc) : Store :=
  if store.any (fun p => p.1 = docId) then
    store.map (fun p => if p.1 = docId then (docId, doc) else p)
  else
    store ++ [(docId, doc)]

/-- The shared document-writing loop of `PgVectorStore.add_documents`
(`pgvector_store.py` lines 210-242) and
`MongoDBAtlasVectorStore.add_documents` (`mongodb_atlas_store.py` lines
196-222): for each document, resolve the id (a fresh generated id when
absent, `freshIds` standing in for `uuid.uuid4()`), skip the document —
without error and without counting it — when its embedding is missing or
empty, otherwise upsert it and increment the count of documents actually
written. -/
def addDocumentsLoop (freshIds : Nat → String) :
    Store → List InputDoc → Nat → Nat → Store × Nat
  | store, [], _, count => (store, count)
  | store, doc :: rest, fresh, count =>
      let docId := doc.id.getD (freshIds fresh)
      if doc.embedding.isEmpty then
        addDocumentsLoop freshIds store rest (fresh + 1) count
      else
        addDocumentsLoop freshIds
          (upsertDoc store docId
            ⟨doc.content, doc.embedding, doc.metadata⟩)
          rest (fresh + 1) (count + 1)

/-- `PgVectorStore.add_documents` (`pgvector_store.py` lines 180-247):
empty input returns 0 immediately (lines 204-205); otherwise the write
loop runs and the number of rows actually inserted/updated is returned. -/
def pgvectorAddDocuments (store : Store) (documents : List InputDoc)
    (freshIds : Nat → String) : Store × Nat :=
  if documents.isEmpty then (store, 0)
  else addDocumentsLoop freshIds store documents 0 0

/-- `MongoDBAtlasVectorStore.add_documents` (`mongodb_atlas_store.py`
lines 166-227): same structure — empty input returns 0 (lines 190-191),
otherwise each document with an embedding is upserted and counted. -/
def mongoAtlasAddDocuments (store : Store) (documents : List InputDoc)
    (freshIds : Nat → String) : Store × Nat :=
  if documents.isEmpty then (store, 0)
  else addDocumentsLoop freshIds store documents 0 0

/-- `PgVectorStore.delete` (`pgvector_store.py` lines 351-393):
`ids = filters.get("ids", [])`; an empty/absent id list returns 0 without
touching the table; otherwise `DELETE … WHERE id IN (…)` runs and the
function returns `len(ids)` — the length of the requested id list, not a
row count. -/
def pgvectorDelete (store : Store) (filtersIds : Option (List String)) :
    Store × Nat :=
  let ids := filtersIds.getD []
  if ids.isEmpty then (store, 0)
  else (store.filter (fun p => ¬ ids.contains p.1), ids.length)

/-- `QdrantVectorStore.delete` (`qdrant_store.py` lines 329-375): ids are
mapped through `hash(id) % 2**63` (the `hashId` parameter), the points
are deleted, and `len(int_ids)` — again the requested-id count — is
returned. -/
def qdrantDelete (store : List (Nat × StoredDoc))
    (filtersIds : Option (List String)) (hashId : String → Nat) :
    List (Nat × StoredDoc) × Nat :=
  let ids := filtersIds.getD []
  if ids.isEmpty then (store, 0)
  else
    let intIds := ids.map hashId
    (store.filter (fun p => ¬ intIds.contains p.1), intIds.length)

/-- `MongoDBAtlasVectorStore.delete` (`mongodb_atlas_store.py` lines
335-372): empty/absent id list returns 0; otherwise
`delete_many({_id: {$in: ids}}).deleted_count` — the number of documents
actually removed — is returned. -/
def mongoAtlasDelete (store : Store)
    (filtersIds : Option (List String)) : Store × Nat :=
  let ids := filtersIds.getD []
  if ids.isEmpty then (store, 0)
  else
    let remaining := store.filter (fun p => ¬ ids.contains p.1)
    (remaining, store.length - remaining.length)

/-- The upserts actually performed by the write loop, in order: each
document with a non-empty embedding, paired with its resolved id (the
given id, or the generated fresh id at that position); skipped documents
contribute nothing (the fresh-id counter still advances past them, as
`uuid.uuid4()` is evaluated per iteration). -/
def writtenDocs (freshIds : Nat → String) :
    List InputDoc → Nat → List (String × StoredDoc)
  | [], _ => []
  | doc :: rest, fresh =>
      if doc.embedding.isEmpty then
        writtenDocs freshIds rest (fresh + 1)
      else
        (doc.id.getD (freshIds fresh),
          ⟨doc.content, doc.embedding, doc.metadata⟩) ::
          writtenDocs freshIds rest (fresh + 1)

theorem addDocumentsLoop_eq_writes (freshIds : Nat → String)
    (docs : List InputDoc) (store : Store) (fresh count : Nat) :
    addDocumentsLoop freshIds store docs fresh count
      = ((writtenDocs freshIds docs fresh).foldl
           (fun s p => upsertDoc s p.1 p.2) store,
         count + (writtenDocs freshIds docs fresh).length) := by
  induction docs generalizing store fresh count with
  | nil => simp [addDocumentsLoop, writtenDocs]
  | cons doc rest ih =>
      by_cases h : doc.embedding.isEmpty
      · simp [addDocumentsLoop, writtenDocs, h, ih]
      · have harith : count + 1 +
            (writtenDocs freshIds rest (fresh + 1)).length
            = count + ((writtenDocs freshIds rest (fresh + 1)).length + 1) :=
          by omega
        simp only [addDocumentsLoop, writtenDocs, h, Bool.false_eq_true,
          if_false, ih, List.foldl_cons, List.length_cons, harith]

theorem writtenDocs_length_countP (freshIds : Nat → String)
    (docs : List InputDoc) (fresh : Nat) :
    (writtenDocs freshIds docs fresh).length
      = docs.countP fun d => !d.embedding.isEmpty := by
  induction docs generalizing fresh with
  | nil => simp [writtenDocs]
  | cons doc rest ih =>
      by_cases h : doc.embedding.isEmpty
      · simp [writtenDocs, h, ih, List.countP_cons]
      · simp [writtenDocs, h, ih, List.countP_cons]

theorem writtenDocs_map_snd (freshIds : Nat → String)
    (docs : List InputDoc) (fresh : Nat) :
    (writtenDocs freshIds docs fresh).map Prod.snd
      = (docs.filter fun d => !d.embedding.isEmpty).map
          fun d => (⟨d.content, d.embedding, d.metadata⟩ : StoredDoc) := by
  induction docs generalizing fresh with
  | nil => simp [writtenDocs]
  | cons doc rest ih =>
      by_cases h : doc.embedding.isEmpty
      · simp [writtenDocs, h, ih, List.filter_cons]
      · simp [writtenDocs, h, ih, List.filter_cons]

/-- C7: for both `PgVectorStore.add_documents` and
`MongoDBAtlasVectorStore.add_documents`, on every document batch the
resulting store is the input store with exactly the upserts of
`writtenDocs` applied and the returned count is the number of those
upserts — so the count equals the number of documents actually written;
the written documents are precisely the ones with a non-empty embedding
(in order, payloads intact), so documents with a missing or empty
embedding are skipped without error and excluded from the count; in
particular `[{"content": "x"}]` writes nothing and returns 0. -/
theorem add_documents_skips_missing_embeddings (store : Store)
    (documents : List InputDoc) (freshIds : Nat → String) :
    (pgvectorAddDocuments store documents freshIds
        = ((writtenDocs freshIds documents 0).foldl
             (fun s p => upsertDoc s p.1 p.2) store,
           (writtenDocs freshIds documents 0).length)) ∧
    (mongoAtlasAddDocuments store documents freshIds
        = ((writtenDocs freshIds documents 0).foldl
             (fun s p => upsertDoc s p.1 p.2) store,
           (writtenDocs freshIds documents 0).length)) ∧
    ((writtenDocs freshIds documents 0).length
        = documents.countP fun d => !d.embedding.isEmpty) ∧
    ((writtenDocs freshIds documents 0).map Prod.snd
        = (documents.filter fun d => !d.embedding.isEmpty).map
            fun d => (⟨d.content, d.embedding, d.metadata⟩ : StoredDoc)) ∧
    (pgvectorAddDocuments store [⟨none, [], "x", []⟩] freshIds
        = (store, 0)) ∧
    (mongoAtlasAddDocuments store [⟨none, [], "x", []⟩] freshIds
        = (store, 0)) := by
  have hmain : ∀ docs : List InputDoc,
      (if docs.isEmpty then (store, 0)
       else addDocumentsLoop freshIds store docs 0 0)
        = ((writtenDocs freshIds docs 0).foldl
             (fun s p => upsertDoc s p.1 p.2) store,
           (writtenDocs freshIds docs 0).length) := by
    intro docs
    cases docs with
    | nil => simp [writtenDocs]
    | cons doc rest =>
        simp only [List.isEmpty_cons, Bool.false_eq_true, if_false]
        rw [addDocumentsLoop_eq_writes]
        simp
  exact ⟨hmain documents, hmain documents,
    writtenDocs_length_countP freshIds documents 0,
    writtenDocs_map_snd freshIds documents 0,
    rfl, rfl⟩

/-- C8 (failing input): `PgVectorStore.delete` with `{ids: ["missing"]}`
against a table holding no such row removes nothing — the store is
unchanged — yet returns 1 (`len(ids)`), while
`MongoDBAtlasVectorStore.delete` on the same input returns the actual
deleted count 0; the empty-id-list no-op part of the claim does hold for
all three backends. -/
theorem delete_count_is_requested_ids_not_rows :
    (pgvectorDelete [] (some ["missing"]) = ([], 1)) ∧
    (qdrantDelete [] (some ["missing"]) (fun _ => 42) = ([], 1)) ∧
    (mongoAtlasDelete [] (some ["missing"]) = ([], 0)) ∧
    (∀ store : Store, pgvectorDelete store none = (store, 0)) ∧
    (∀ store : Store, pgvectorDelete store (some []) = (store, 0)) ∧
    (∀ store : List (Nat × StoredDoc), ∀ h : String → Nat,
      qdrantDelete store none h = (store, 0)) ∧
    (∀ store : Store, mongoAtlasDelete store (some []) = (store, 0)) := by
  refine ⟨rfl, rfl, rfl, ?_, ?_, ?_, ?_⟩ <;>
    intros <;> rfl

/-! ## HybridMerger (spec §4.3) and QdrantRetriever construction -/

/-- Modelled from the spec: the RRF damping constant `k` of §4.3 ("a
small constant, e.g. 60"); the `HybridMerger` implementation
(`app.modules.core.retrieval.bm25_engine.hybrid_merger`) is not among the
provided sources — only its unit tests are — so the merger definitions in
this section follow the spec's algorithm description and those tests. -/
def rrfDampingK : ℚ := 60

/-- Modelled from the spec: the per-list RRF fusion contribution
`1 / (rank + k)` for a 1-based rank (spec §4.3). -/
def rrfContribution (rank : Nat) : ℚ :=
  1 / ((rank : ℚ) + rrfDampingK)

/-- A raw BM25 result row fed to `HybridMerger.merge`: id, content, and
metadata defaulting to the empty map when the key is absent. -/
structure BM25Row where
  id : String
  content : String
  metadata : List (String × String)
deriving Repr, DecidableEq

/-- 1-based rank of `docId` in the dense list, `none` when absent. -/
def denseRankOf (dense : List (SearchResult ℚ)) (docId : String) :
    Option Nat :=
  (dense.findIdx? fun r => r.id == docId).map (· + 1)

/-- 1-based rank of `docId` in the BM25 list, `none` when absent. -/
def bm25RankOf (bm25 : List BM25Row) (docId : String) : Option Nat :=
  (bm25.findIdx? fun r => r.id == docId).map (· + 1)

/-- Modelled from the spec: the fused RRF score of a document (spec §4.3)
— the dense list's contribution weighted by `alpha` plus the BM25 list's
contribution weighted by `1 - alpha`; a document present in both lists
gets both weighted contributions summed, a document present in only one
list keeps that list's weighted contribution. -/
def fusedScore (alpha : ℚ) (dense : List (SearchResult ℚ))
    (bm25 : List BM25Row) (docId : String) : ℚ :=
  (match denseRankOf dense docId with
   | some r => alpha * rrfContribution r
   | none => 0) +
  (match bm25RankOf bm25 docId with
   | some s => (1 - alpha) * rrfContribution s
   | none => 0)

/-- Modelled from the spec: `HybridMerger` construction validates
`0.0 <= alpha <= 1.0` and fails fast with a configuration error
otherwise, never clamping (spec §4.3; `TestInvalidAlpha` of
`src/tests/unit/retrieval/test_hybrid_merger.py` asserts a `ValueError`
matching "alpha" for 1.5 and -0.1). -/
def hybridMergerInit (alpha : ℚ) : Except String Unit :=
  if alpha < 0 ∨ 1 < alpha then
    .error "alpha must be between 0.0 and 1.0"
  else
    .ok ()

/-- Modelled from the spec: `HybridMerger.merge` (spec §4.3) — every
dense document and every BM25-only document is assigned its fused RRF
score, the union is sorted descending by fused score (stable, so ties
keep dense-list order then BM25-list order) and truncated to `top_k`. -/
noncomputable def hybridMerge (alpha : ℚ) (dense : List (SearchResult ℚ))
    (bm25 : List BM25Row) (top_k : Nat) : List (SearchResult ℚ) :=
  let fromDense := dense.map fun r =>
    { r with score := fusedScore alpha dense bm25 r.id }
  let bm25Only := bm25.filter fun row =>
    ¬ dense.any (fun r => r.id == row.id)
  let fromBm25 := bm25Only.map fun row =>
    ({ id := row.id, content := row.content,
       score := fusedScore alpha dense bm25 row.id,
       metadata := row.metadata } : SearchResult ℚ)
  ((fromDense ++ fromBm25).insertionSort scoreGE).take top_k

/-- The observable configuration state produced by
`QdrantRetriever.__init__`. -/
structure QdrantRetrieverCfg where
  collection_name : String
  top_k : Nat
  hybrid_alpha : ℚ
  bm25_preprocessing_enabled : Bool
deriving Repr, DecidableEq

/-- `QdrantRetriever.__init__` (`qdrant_retriever.py` lines 80-146): the
constructor only stores its arguments (and derives the BM25-preprocessing
flag from the presence of the optional collaborators); its body contains
no validation of `hybrid_alpha` and no `raise`, so it never fails. -/
def qdrantRetrieverInit (collection_name : String) (top_k : Nat)
    (hybrid_alpha : ℚ)
    (hasSynonymManager hasStopwordFilter hasUserDictionary : Bool) :
    Except String QdrantRetrieverCfg :=
  .ok { collection_name := collection_name, top_k := top_k,
        hybrid_alpha := hybrid_alpha,
        bm25_preprocessing_enabled :=
          hasSynonymManager || hasStopwordFilter || hasUserDictionary }

theorem rrfContribution_one_pos : 0 < rrfContribution 1 := by
  norm_num [rrfContribution, rrfDampingK]

/-- C5 (counterexample to the claim as stated): constructing a
`QdrantRetriever` — the hybrid retriever — with `hybrid_alpha = 1.5` or
`-0.1` does not raise a configuration error: the constructor succeeds
and stores the out-of-range value unchanged. -/
theorem qdrant_retriever_init_accepts_invalid_alpha :
    (qdrantRetrieverInit "documents" 10 (3 / 2) false false false
      = .ok ⟨"documents", 10, 3 / 2, false⟩) ∧
    (qdrantRetrieverInit "documents" 10 (-(1 / 10)) false false false
      = .ok ⟨"documents", 10, -(1 / 10), false⟩) :=
  ⟨rfl, rfl⟩

/-- C5 (amended): `HybridMerger` construction raises a configuration
error for `alpha = 1.5` and `alpha = -0.1` and accepts the boundary
values `0.0` and `1.0` (never clamping); the hybrid retriever
(`QdrantRetriever`), by contrast, performs no alpha validation at all —
construction succeeds for every alpha and stores the value unchanged. -/
theorem alpha_validated_by_merger_not_retriever :
    (hybridMergerInit (3 / 2)
      = .error "alpha must be between 0.0 and 1.0") ∧
    (hybridMergerInit (-(1 / 10))
      = .error "alpha must be between 0.0 and 1.0") ∧
    (hybridMergerInit 0 = .ok ()) ∧
    (hybridMergerInit 1 = .ok ()) ∧
    (∀ (c : String) (k : Nat) (alpha : ℚ) (s1 s2 s3 : Bool),
      qdrantRetrieverInit c k alpha s1 s2 s3
        = .ok ⟨c, k, alpha, s1 || s2 || s3⟩) := by
  refine ⟨?_, ?_, ?_, ?_, fun c k alpha s1 s2 s3 => rfl⟩ <;>
    norm_num [hybridMergerInit]

/-- C4: in the fused RRF scoring of `HybridMerger.merge`, a document
present in both input lists receives the sum (not the average) of its
`alpha`-weighted dense contribution and its `(1-alpha)`-weighted BM25
contribution; consequently, for every `alpha` strictly between 0 and 1, a
document at rank 1 of both lists (fused score `1/(1+k)`) scores strictly
higher than a document at rank 1 of only the dense list (score
`alpha/(1+k)`) or of only the BM25 list (score `(1-alpha)/(1+k)`), and
since every `hybridMerge` output is sorted descending by fused score, the
higher-scored document is ranked above it. -/
theorem rrf_both_lists_summed_outranks_single (alpha : ℚ)
    (h0 : 0 < alpha) (h1 : alpha < 1)
    (dense denseB denseC : List (SearchResult ℚ))
    (bm25 bm25B bm25C : List BM25Row) (a b c : String)
    (ha1 : denseRankOf dense a = some 1)
    (ha2 : bm25RankOf bm25 a = some 1)
    (hb1 : denseRankOf denseB b = some 1)
    (hb2 : bm25RankOf bm25B b = none)
    (hc1 : denseRankOf denseC c = none)
    (hc2 : bm25RankOf bm25C c = some 1) :
    (∀ docId r s, denseRankOf dense docId = some r →
        bm25RankOf bm25 docId = some s →
        fusedScore alpha dense bm25 docId
          = alpha * rrfContribution r + (1 - alpha) * rrfContribution s) ∧
    (fusedScore alpha dense bm25 a = rrfContribution 1) ∧
    (fusedScore alpha denseB bm25B b = alpha * rrfContribution 1) ∧
    (fusedScore alpha denseC bm25C c = (1 - alpha) * rrfContribution 1) ∧
    (fusedScore alpha denseB bm25B b < fusedScore alpha dense bm25 a) ∧
    (fusedScore alpha denseC bm25C c < fusedScore alpha dense bm25 a) ∧
    (∀ (d : List (SearchResult ℚ)) (bm : List BM25Row) (top_k : Nat),
      (hybridMerge alpha d bm top_k).Sorted scoreGE) := by
  have hsum : ∀ docId r s, denseRankOf dense docId = some r →
      bm25RankOf bm25 docId = some s →
      fusedScore alpha dense bm25 docId
        = alpha * rrfContribution r + (1 - alpha) * rrfContribution s := by
    intro docId r s hr hs
    simp [fusedScore, hr, hs]
  have hA : fusedScore alpha dense bm25 a = rrfContribution 1 := by
    rw [hsum a 1 1 ha1 ha2]
    ring
  have hB : fusedScore alpha denseB bm25B b
      = alpha * rrfContribution 1 := by
    simp [fusedScore, hb1, hb2]
  have hC : fusedScore alpha denseC bm25C c
      = (1 - alpha) * rrfContribution 1 := by
    simp [fusedScore, hc1, hc2]
  have hBA : fusedScore alpha denseB bm25B b
      < fusedScore alpha dense bm25 a := by
    rw [hA, hB]
    calc alpha * rrfContribution 1
        < 1 * rrfContribution 1 :=
          mul_lt_mul_of_pos_right h1 rrfContribution_one_pos
      _ = rrfContribution 1 := one_mul _
  have hCA : fusedScore alpha denseC bm25C c
      < fusedScore alpha dense bm25 a := by
    rw [hA, hC]
    calc (1 - alpha) * rrfContribution 1
        < 1 * rrfContribution 1 :=
          mul_lt_mul_of_pos_right (by linarith) rrfContribution_one_pos
      _ = rrfContribution 1 := one_mul _
  refine ⟨hsum, hA, hB, hC, hBA, hCA, ?_⟩
  intro d bm top_k
  exact List.Pairwise.sublist (List.take_sublist top_k _)
    (List.sorted_insertionSort scoreGE _)

theorem rrf_both_lists_summed_outranks_single_witness :
    ((0 : ℚ) < 1 / 2) ∧ ((1 : ℚ) / 2 < 1) ∧
    (denseRankOf [⟨"A", "공통문서", 0, []⟩] "A" = some 1) ∧
    (bm25RankOf [⟨"A", "공통문서", []⟩] "A" = some 1) ∧
    (denseRankOf [⟨"B", "벡터전용", 0, []⟩] "B" = some 1) ∧
    (bm25RankOf [] "B" = none) ∧
    (denseRankOf [] "C" = none) ∧
    (bm25RankOf [⟨"C", "키워드전용", []⟩] "C" = some 1) ∧
    ((∀ docId r s,
        denseRankOf [⟨"A", "공통문서", 0, []⟩] docId = some r →
        bm25RankOf [⟨"A", "공통문서", []⟩] docId = some s →
        fusedScore (1 / 2) [⟨"A", "공통문서", 0, []⟩]
            [⟨"A", "공통문서", []⟩] docId
          = (1 / 2) * rrfContribution r
              + (1 - 1 / 2) * rrfContribution s) ∧
     (fusedScore (1 / 2) [⟨"A", "공통문서", 0, []⟩]
        [⟨"A", "공통문서", []⟩] "A" = rrfContribution 1) ∧
     (fusedScore (1 / 2) [⟨"B", "벡터전용", 0, []⟩] [] "B"
        = (1 / 2) * rrfContribution 1) ∧
     (fusedScore (1 / 2) [] [⟨"C", "키워드전용", []⟩] "C"
        = (1 - 1 / 2) * rrfContribution 1) ∧
     (fusedScore (1 / 2) [⟨"B", "벡터전용", 0, []⟩] [] "B"
        < fusedScore (1 / 2) [⟨"A", "공통문서", 0, []⟩]
            [⟨"A", "공통문서", []⟩] "A") ∧
     (fusedScore (1 / 2) [] [⟨"C", "키워드전용", []⟩] "C"
        < fusedScore (1 / 2) [⟨"A", "공통문서", 0, []⟩]
            [⟨"A", "공통문서", []⟩] "A") ∧
     (∀ (d : List (SearchResult ℚ)) (bm : List BM25Row) (top_k : Nat),
       (hybridMerge (1 / 2) d bm top_k).Sorted scoreGE)) :=
  ⟨by norm_num, by norm_num, rfl, rfl, rfl, rfl, rfl, rfl,
   rrf_both_lists_summed_outranks_single (1 / 2) (by norm_num)
     (by norm_num) _ _ _ _ _ _ "A" "B" "C" rfl rfl rfl rfl rfl rfl⟩

end OneRAG
